import Mathlib

/-!
Verification of `src/photometry.py` (class `Photometry`): star-sequence
extraction, 2-D Gaussian PSF fitting, aperture photometry and the
zeropoint/colour-term fit.  Every definition below is a shallow embedding of
the corresponding Python code; floating-point values are modelled as exact
rationals, with `NFloat := Option ℚ` when a value can be NaN (`none` = NaN).
Standard deviations are represented by their squares (variances), which is
faithful because `std = Real.sqrt var` is injective on the nonnegative values
that occur, and every comparison the source makes against `k * std` is
equivalent to the corresponding comparison of squares.
-/

namespace Photometry

/-- A float that may be NaN: `none` is NaN, `some q` a finite value. -/
abbrev NFloat : Type := Option ℚ

/-- Model of `np.isnan`. -/
def nIsNan : NFloat → Bool
  | none => true
  | some _ => false

/-- NaN-propagating division.  When the divisor is `0` the source's IEEE
arithmetic produces `inf` (nonzero numerator) or `nan` (zero numerator); in
every place the source divides, the quotient is then only consumed by
comparisons that are false on both `inf`-out-of-range and `nan` (see
`_find_fwhm`: the quotient `fwhm_y/fwhm_x` is tested against the open
interval (0.5, 2), and `min/max` of two nonnegative floats can only divide by
zero in the `0/0` case), so `none` is observationally faithful there. -/
def nDiv : NFloat → NFloat → NFloat
  | some a, some b => if b = 0 then none else some (a / b)
  | _, _ => none

/-- Model of `np.minimum` (NaN-propagating). -/
def nMin : NFloat → NFloat → NFloat
  | some a, some b => some (min a b)
  | _, _ => none

/-- Model of `np.maximum` (NaN-propagating). -/
def nMax : NFloat → NFloat → NFloat
  | some a, some b => some (max a b)
  | _, _ => none

/-- Model of `np.maximum(q, x)` against a constant first argument. -/
def nMaxQ (q : ℚ) : NFloat → NFloat
  | some a => some (max q a)
  | none => none

/-- Model of `np.average([a, b])`. -/
def nAvg : NFloat → NFloat → NFloat
  | some a, some b => some ((a + b) / 2)
  | _, _ => none

/-- Comparison `q < x`: false when `x` is NaN (IEEE semantics). -/
def nGtQ : NFloat → ℚ → Bool
  | some a, q => decide (q < a)
  | none, _ => false

/-- Comparison `x < q`: false when `x` is NaN (IEEE semantics). -/
def nLtQ : NFloat → ℚ → Bool
  | some a, q => decide (a < q)
  | none, _ => false

/-- Python's chained `lo < x < hi` on a possibly-NaN value. -/
def nInOpen (x : NFloat) (lo hi : ℚ) : Bool :=
  nGtQ x lo && nLtQ x hi

/-- Scale by a constant: `np.abs(sigma) * k` (the FWHM conversion). -/
def nAbsMul (k : ℚ) : NFloat → NFloat
  | some s => some (|s| * k)
  | none => none

/-- Plain scaling `x * q` (e.g. the pixel→arcsec conversion `fwhm*pix2ang`). -/
def nScale (q : ℚ) : NFloat → NFloat
  | some a => some (a * q)
  | none => none

/-! ## PSF fitter (`_find_fwhm`, lines 190–213)

One record of the output array `out`, with fields `detected`, `fwhm`, `e`.
The converged-fit branch computes, from the optimizer output `popt`,

    fwhm_x = np.abs(popt[3]) * 2 * np.sqrt(2 * np.log(2))
    fwhm_y = np.abs(popt[4]) * 2 * np.sqrt(2 * np.log(2))
    amplitude = popt[0]
    background = np.maximum(0.001, popt[-1])
    detected = ~isnan(fwhm_x) * ~isnan(fwhm_y) * (amplitude > 1)
               * (0.5 < (fwhm_y/fwhm_x) < 2) * (amplitude/background > 0.2)
    out[i] = (detected, np.average([fwhm_x, fwhm_y]),
              np.minimum(fwhm_x, fwhm_y) / np.maximum(fwhm_x, fwhm_y))

The irrational conversion constant `2*sqrt(2*ln 2)` is the parameter `k`
(the source fixes one positive value of it). -/

/-- One entry of the structured array produced by `_find_fwhm`. -/
structure StarFit where
  detected : Bool
  fwhm : NFloat
  e : NFloat
  deriving DecidableEq

/-- The converged-fit branch of `_find_fwhm`, as a function of the optimizer
outputs `popt[3]` (`sx`), `popt[4]` (`sy`), `popt[0]` (`amp`) and `popt[-1]`
(`off`), each possibly NaN, and of the positive FWHM conversion constant
`k = 2*sqrt(2*ln 2)`. -/
def mkFitRecord (k : ℚ) (sx sy amp off : NFloat) : StarFit :=
  let fx := nAbsMul k sx
  let fy := nAbsMul k sy
  let bg := nMaxQ (1/1000) off
  let det := !(nIsNan fx) && !(nIsNan fy) && nGtQ amp 1 &&
      nInOpen (nDiv fy fx) (1/2) 2 && nGtQ (nDiv amp bg) (1/5)
  { detected := det, fwhm := nAvg fx fy, e := nDiv (nMin fx fy) (nMax fx fy) }

/-- The `except RuntimeError` branch of `_find_fwhm` (optimizer
non-convergence): `detected = False`, `fwhm_x = fwhm_y = 0`, so the stored
record is `(False, np.average([0, 0]), np.minimum(0,0)/np.maximum(0,0))`,
whose ellipticity entry is the IEEE `0/0 = nan`. -/
def failedFitRecord : StarFit :=
  { detected := false
    fwhm := nAvg (some 0) (some 0)
    e := nDiv (nMin (some 0) (some 0)) (nMax (some 0) (some 0)) }

/-! ## Cutout extraction control flow (`_find_fwhm`, lines 172–203)

For a star at integer pixel position `(x, y)` the source slices

    sub = img[y-hrad : y+hrad, x-hrad : x+hrad]

with Python slice semantics (negative indices wrap to the end of the axis;
out-of-range bounds are clamped), then runs

    def_x = np.argmax(np.sum(sub, axis=0))     -- raises ValueError if sub has 0 columns
    def_y = np.argmax(np.sum(sub, axis=1))     -- raises ValueError if sub has 0 rows
    ... np.percentile(sub, 40) ...
    popt, pcov = opt.curve_fit(self._twoD_Gaussian, (X, Y), sub.flatten(), ...)

where the meshgrid `X, Y` is built from `len(sub)` (= number of rows) points
on each axis, so `curve_fit` receives `rows*rows` model points against
`rows*cols` data points and raises a shape-mismatch `ValueError` whenever the
clamped cutout is not square.  The surrounding `try` only catches
`RuntimeError` (optimizer non-convergence), so each such `ValueError`
escapes `_find_fwhm`. -/

/-- Length of the Python slice `[a:b]` (step 1) of an axis of length `n`:
negative endpoints wrap to `n + ·`, then both are clamped to `[0, n]`. -/
def sliceLen (n : ℕ) (a b : ℤ) : ℕ :=
  let norm : ℤ → ℤ := fun i => if i < 0 then max (n + i) 0 else min i n
  (norm b - norm a).toNat

/-- What one iteration of the `_find_fwhm` loop does for a star at pixel
`(x, y)` on an `h × w` image with cutout half-width `hrad`, up to the call of
the optimizer.  `raisesValueError` means an exception escapes the
`except RuntimeError` handler and aborts the whole batch. -/
inductive FitFlow where
  | raisesValueError
  | fitAttempt
  deriving DecidableEq

/-- Control flow of the cutout/seed phase of `_find_fwhm` for one star. -/
def findFwhmFlow (h w hrad : ℕ) (x y : ℤ) : FitFlow :=
  let rows := sliceLen h (y - hrad) (y + hrad)
  let cols := sliceLen w (x - hrad) (x + hrad)
  if cols = 0 then .raisesValueError      -- np.argmax of np.sum(sub, axis=0), an empty array
  else if rows = 0 then .raisesValueError -- np.argmax of np.sum(sub, axis=1), an empty array
  else if rows ≠ cols then .raisesValueError -- curve_fit shape mismatch: rows² vs rows*cols
  else .fitAttempt

/-! ## Post-fit quality mask (`_extract_star_sequence`, lines 408–417)

    mask_valid_fwhm = ( ~np.isnan(out['fwhm']) * ~np.isnan(out['e'])
                        * out['detected'] * (out['e']>0.6) * (out['fwhm'] < 10) )

`out['fwhm']` is the fitter output, in PIXEL units: the source converts it to
arcsec only after masking (`fwhm = Column(data=outd['fwhm']*pix2ang)`,
line 422, and the log line 431 prints `outd['fwhm']` as "pixels" and
`outd['fwhm']*pix2ang` as "arcsec").  If fewer than 3 stars survive, the
function logs an error carrying the surviving count and returns `False`. -/

/-- The source's post-fit quality mask (line 411). -/
def mask_valid_fwhm (r : StarFit) : Bool :=
  !(nIsNan r.fwhm) && !(nIsNan r.e) && r.detected &&
    nGtQ r.e (3/5) && nLtQ r.fwhm 10

/-- The quality mask as the SPEC words it ("FWHM is below 10 arcsec"), where
the arcsec FWHM of a record is `fwhm * pix2ang` (the conversion the source
itself applies on line 422).  Written from the spec sentence, for comparison
with `mask_valid_fwhm`. -/
def maskValidFwhmSpecArcsec (pix2ang : ℚ) (r : StarFit) : Bool :=
  !(nIsNan r.fwhm) && !(nIsNan r.e) && r.detected &&
    nGtQ r.e (3/5) && nLtQ (nScale pix2ang r.fwhm) 10

/-- Log events of the quality-mask stage. -/
inductive ExtractEvent where
  | infoLeftValid (n : ℕ)   -- "Left %d stars with valid fwhm."
  | errorTooFew (n : ℕ)     -- "ERROR with FWHM!! Too few points ... %d"
  deriving DecidableEq

/-- The quality-mask stage of `_extract_star_sequence` (lines 408–421):
filter by `mask_valid_fwhm`; with fewer than 3 survivors log an error that
carries the surviving count and return the failure value (`False` in the
source, `none` here), otherwise keep the surviving records. -/
def extract_quality (recs : List StarFit) : Option (List StarFit) × List ExtractEvent :=
  let kept := recs.filter mask_valid_fwhm
  if kept.length < 3 then
    (none, [.infoLeftValid kept.length, .errorTooFew kept.length])
  else
    (some kept, [.infoLeftValid kept.length])

/-! ## Catalogue masking (`_extract_star_sequence`, lines 364–376)

    off = math.ceil(15/pix2ang)
    mask1 = (x>off) * (x<img.shape[1]-off) * (y>off) * (y<img.shape[0]-off)
    indexes, separations, distances = catcoords.match_to_catalog_sky(catcoords, nthneighbor=2)
    mask2 = (separations > 10 * u.arcsec)
    mask3 = (catalog[band]>minmag) * (catalog[band]<maxmag)
    mask = mask1 * mask2 * mask3

All three masks are boolean vectors over the full catalogue; `mask2` uses the
second-nearest neighbour over the FULL catalogue (sky separation to every
other entry), independent of the magnitude bounds.  The sky-separation
function is the external WCS/astropy primitive, taken here as a parameter
`d : ℕ → ℕ → ℚ` giving the separation (arcsec) between catalogue entries. -/

/-- One catalogue row after projection to pixels: pixel position and the
catalogue magnitude in the image's band. -/
structure CatRow where
  x : ℚ
  y : ℚ
  mag : ℚ
  deriving DecidableEq

/-- Border margin in pixels: `off = math.ceil(15/pix2ang)`. -/
def offPix (pix2ang : ℚ) : ℤ := ⌈(15 : ℚ) / pix2ang⌉

/-- Mask `mask1`: inside the image with a border margin of `off` pixels
(`img.shape[1]` = width `w` bounds `x`, `img.shape[0]` = height `h` bounds
`y`). -/
def infieldMask (w h : ℕ) (pix2ang : ℚ) (s : CatRow) : Bool :=
  let o : ℚ := offPix pix2ang
  decide (o < s.x) && decide (s.x < w - o) && decide (o < s.y) && decide (s.y < h - o)

/-- Mask `mask2` for the catalogue entry at index `i` of an `n`-entry catalogue:
the separation to the nearest OTHER entry exceeds 10 arcsec, i.e. every other
entry is farther than 10 arcsec. -/
def isoMask (d : ℕ → ℕ → ℚ) (n i : ℕ) : Bool :=
  decide (∀ j, j < n → j ≠ i → 10 < d i j)

/-- Mask `mask3`: catalogue magnitude strictly inside `(minmag, maxmag)`. -/
def magMask (minmag maxmag : ℚ) (s : CatRow) : Bool :=
  decide (minmag < s.mag) && decide (s.mag < maxmag)

/-- Mask `mask1` as a boolean vector over catalogue indices. -/
def idxInfield (w h : ℕ) (pix2ang : ℚ) (cat : List CatRow) (i : ℕ) : Bool :=
  infieldMask w h pix2ang (cat.getD i ⟨0, 0, 0⟩)

/-- Mask `mask2` as a boolean vector over catalogue indices; computed from
the FULL catalogue (the source cross-matches `catcoords` against itself
before any magnitude filtering). -/
def idxIso (d : ℕ → ℕ → ℚ) (cat : List CatRow) (i : ℕ) : Bool :=
  isoMask d cat.length i

/-- Mask `mask3` as a boolean vector over catalogue indices. -/
def idxMag (minmag maxmag : ℚ) (cat : List CatRow) (i : ℕ) : Bool :=
  magMask minmag maxmag (cat.getD i ⟨0, 0, 0⟩)

/-- The combined mask of line 376 (`mask = mask1 * mask2 * mask3`), selecting
the surviving catalogue indices. -/
def combinedSelect (w h : ℕ) (pix2ang : ℚ) (d : ℕ → ℕ → ℚ)
    (cat : List CatRow) (minmag maxmag : ℚ) : List ℕ :=
  (List.range cat.length).filter fun i =>
    idxInfield w h pix2ang cat i && idxIso d cat i && idxMag minmag maxmag cat i

/-! ## numpy / astropy statistics helpers

Exact rational versions of `np.median`, `np.var` (= `np.std` squared,
`ddof = 0`) and `astropy.stats.sigma_clipped_stats` with its defaults
(`sigma = 3`, at most 5 clipping iterations, centred on the median, spread
measured by the standard deviation).  A value `v` survives one clipping
iteration iff `|v - median| ≤ 3*std`, i.e. iff `(v - median)² ≤ 9*var`. -/

/-- Insert into a sorted list (ascending). -/
def insertSorted (x : ℚ) : List ℚ → List ℚ
  | [] => [x]
  | y :: ys => if x ≤ y then x :: y :: ys else y :: insertSorted x ys

/-- Insertion sort (ascending); used to take medians. -/
def sortQ : List ℚ → List ℚ
  | [] => []
  | x :: xs => insertSorted x (sortQ xs)

/-- Model of `np.median`: middle element of the sorted list, or the mean of the two
middle elements for an even count. -/
def npMedian (xs : List ℚ) : ℚ :=
  let s := sortQ xs
  let n := s.length
  if n = 0 then 0
  else if n % 2 = 1 then s.getD (n / 2) 0
  else (s.getD (n / 2 - 1) 0 + s.getD (n / 2) 0) / 2

/-- Model of `np.var` with `ddof = 0` (the square of `np.std`). -/
def npVar (xs : List ℚ) : ℚ :=
  let n : ℚ := xs.length
  if xs.length = 0 then 0
  else
    let m := xs.sum / n
    ((xs.map fun x => (x - m) ^ 2).sum) / n

/-- One astropy clipping iteration: keep the values within
`median ± 3*std` (inclusive bounds, as astropy masks only the values
strictly outside). -/
def clipOnce (xs : List ℚ) : List ℚ :=
  let c := npMedian xs
  let v := npVar xs
  xs.filter fun x => decide ((x - c) ^ 2 ≤ 9 * v)

/-- Iterated clipping with fuel (astropy default `maxiters = 5`), stopping
early once an iteration removes nothing. -/
def clipIter : ℕ → List ℚ → List ℚ
  | 0, xs => xs
  | n + 1, xs =>
    let ys := clipOnce xs
    if ys.length = xs.length then xs else clipIter n ys

/-- Model of `sigma_clipped_stats(xs)[1:]`: the (median, variance) of the clipped
data — variance standing for the square of the returned `std`. -/
def sigmaClipStats (xs : List ℚ) : ℚ × ℚ :=
  let k := clipIter 5 xs
  (npMedian k, npVar k)

/-! ## Zeropoint fit (`get_zeropoint`, lines 656–774)

One catalogue star surviving extraction, joined with its aperture photometry:
`cat = t[filt]`, `col = t[col_filt]`, `dcat = t['d'+filt]` (meaningful only
when that column exists, flag `hasD`), `inst = phot['inst_mag']`,
`err = phot['err_mag']`.

The source pipeline, after `mask_color_exists = np.abs(t[col_filt]) < 30`:

    zp_vec = t[filt] - phot['inst_mag']
    _, median_sigclip, std_sigclip = sigma_clipped_stats(zp_vec)
    mask_good = np.abs(zp_vec - median_sigclip) < (3*std_sigclip)
    color = t[filt] - t[col_filt]
    mask_good = mask_good * (np.abs(color) < 0.8)        -- then filter rows
    coefs, ... = np.polyfit(color, zp_vec, w=..., deg=1)  -- weighted fit
    prediction_error_zp = zp_vec - p(color)
    _, median_sigclip, std_sigclip = sigma_clipped_stats(prediction_error_zp)
    mask_good = np.abs(prediction_error_zp - median_sigclip) < (3*std_sigclip)
    coefs, ... = np.polyfit(color, zp_vec, w=..., deg=1)  -- refit on survivors
    fitsutils.update_par(imgfile, "ZP", coefs[1], ...)
    fitsutils.update_par(imgfile, "ZPERR", np.std(zp_vec - p(color)), ...)
    fitsutils.update_par(imgfile, "KCOEF", coefs[0], ...)
    fitsutils.update_par(imgfile, "COLOR", "%s-%s" % (filt, col_filt), ...)
    return np.median(zp_vec), np.std(zp_vec - p(color)), coefs[0]

`np.polyfit(x, y, w, deg=1)` minimizes `Σ (w_i*(a*x_i + b - y_i))²`, whose
unique minimizer (when the weighted design is non-degenerate) is given by the
weighted normal equations, which depend on the weights only through `w²`; the
embedding therefore works with the squared weights `1/(dcat²+err²)` resp.
`1/err²` and stays in ℚ.  (The unweighted `stats.linregress` results on
lines 676/717/737 are computed but never used for masking, returning or
header writes, and are omitted.) -/

/-- One joined star row of the zeropoint fit. -/
structure ZPRow where
  cat : ℚ
  col : ℚ
  dcat : ℚ
  inst : ℚ
  err : ℚ
  deriving DecidableEq

/-- Entry of `zp_vec`: catalogue magnitude minus instrumental magnitude. -/
def zpv (r : ZPRow) : ℚ := r.cat - r.inst

/-- Entry of `color`: catalogue magnitude minus the colour-band magnitude. -/
def colv (r : ZPRow) : ℚ := r.cat - r.col

/-- Squared `np.polyfit` weight: `1/(t['d'+filt]² + err_mag²)` when the
catalogue-error column exists, else `1/err_mag²`. -/
def wsq (hasD : Bool) (r : ZPRow) : ℚ :=
  if hasD then 1 / (r.dcat ^ 2 + r.err ^ 2) else 1 / r.err ^ 2

/-- Weighted degree-1 `np.polyfit` of `zp_vec` against `color`: returns
`(coefs[0], coefs[1]) = (slope, intercept)` from the weighted normal
equations. -/
def wlsFit (hasD : Bool) (rows : List ZPRow) : ℚ × ℚ :=
  let W := (rows.map fun r => wsq hasD r).sum
  let Sx := (rows.map fun r => wsq hasD r * colv r).sum
  let Sxx := (rows.map fun r => wsq hasD r * colv r ^ 2).sum
  let Sy := (rows.map fun r => wsq hasD r * zpv r).sum
  let Sxy := (rows.map fun r => wsq hasD r * colv r * zpv r).sum
  let det := W * Sxx - Sx ^ 2
  ((W * Sxy - Sx * Sy) / det, (Sxx * Sy - Sx * Sxy) / det)

/-- Rows surviving the colour-exists cut `|t[col_filt]| < 30`. -/
def zpRows1 (rows : List ZPRow) : List ZPRow :=
  rows.filter fun r => decide (|r.col| < 30)

/-- Rows surviving pass 1: within 3 clipped sigmas of the clipped median of
`zp_vec` AND `|color| < 0.8`. -/
def zpRows2 (rows : List ZPRow) : List ZPRow :=
  let r1 := zpRows1 rows
  let mv := sigmaClipStats (r1.map zpv)
  r1.filter fun r =>
    decide ((zpv r - mv.1) ^ 2 < 9 * mv.2) && decide (|colv r| < 4/5)

/-- Residual of a row against a fitted line `(slope, intercept)`. -/
def fitResidual (c : ℚ × ℚ) (r : ZPRow) : ℚ := zpv r - (c.1 * colv r + c.2)

/-- Rows surviving pass 2: within 3 clipped sigmas of the clipped median of
the pass-1 fit residuals. -/
def zpRows3 (hasD : Bool) (rows : List ZPRow) : List ZPRow :=
  let r2 := zpRows2 rows
  let c1 := wlsFit hasD r2
  let mv := sigmaClipStats (r2.map (fitResidual c1))
  r2.filter fun r => decide ((fitResidual c1 r - mv.1) ^ 2 < 9 * mv.2)

/-- What `get_zeropoint` persists into the image header on success.  `zperrVar`
is the square of the written `ZPERR`. -/
structure ZPHeaderOut where
  zp : ℚ
  zperrVar : ℚ
  kcoef : ℚ
  colorPair : String × String
  deriving DecidableEq

/-- Result of the success path of `get_zeropoint`: the returned triple
(`ret.2.1` being the square of the returned standard deviation) and the
header writes. -/
structure ZPRunOut where
  ret : ℚ × ℚ × ℚ
  header : ZPHeaderOut
  deriving DecidableEq

/-- The success path of `get_zeropoint` (lines 666–774). -/
def get_zeropoint_success (filt colfilt : String) (hasD : Bool)
    (rows : List ZPRow) : ZPRunOut :=
  let r3 := zpRows3 hasD rows
  let c2 := wlsFit hasD r3
  let res2 := r3.map (fitResidual c2)
  { ret := (npMedian (r3.map zpv), npVar res2, c2.1)
    header := { zp := c2.2, zperrVar := npVar res2, kcoef := c2.1
                colorPair := (filt, colfilt) } }

/-- The failure modes of `_extract_star_sequence` enumerated by its explicit
failure returns: unknown survey (line 330, `return None`), failed or empty
catalogue query (lines 333/349/352, `return False`; per §6 of the spec the
external `CatalogueQuery` signals failure by a return value), no stars
surviving the combined masks (line 380), fewer than 3 stars with a valid PSF
fit (line 417). -/
inductive ExtractFailure where
  | unknownSurvey
  | queryFailedOrEmpty
  | catalogueRenameError
  | noStarsAfterMasks
  | tooFewValidFwhm
  deriving DecidableEq

/-- Python value returned by `_extract_star_sequence`: `None`, `False`, or
the detected-stars data (the source returns the file name; its parsed
contents are carried here directly). -/
inductive ExtractResult where
  | pyNone
  | pyFalse
  | starsFile (filt colfilt : String) (hasD : Bool) (rows : List ZPRow)

/-- Which falsy Python value each failure mode returns. -/
def extractReturn : ExtractFailure → ExtractResult
  | .unknownSurvey => .pyNone
  | _ => .pyFalse

/-- Python truthiness of the `_extract_star_sequence` return value. -/
def extractTruthy : ExtractResult → Bool
  | .pyNone => false
  | .pyFalse => false
  | .starsFile _ _ _ _ => true

/-- Exceptions of the modelled Python fragments. -/
inductive PyErr where
  | nameError
  | typeError
  | indexError
  | valueError
  deriving DecidableEq

/-- Function `get_zeropoint` (lines 656–774): on a falsy extraction result return the
sentinel `(0, 0, 0)` (line 659) without raising; otherwise run the fit. -/
def get_zeropoint : ExtractResult → Except PyErr (ℚ × ℚ × ℚ)
  | .pyNone => .ok (0, 0, 0)
  | .pyFalse => .ok (0, 0, 0)
  | .starsFile filt colfilt hasD rows =>
      .ok (get_zeropoint_success filt colfilt hasD rows).ret

/-! ## Aperture photometry arithmetic (`app_phot`, lines 583–599)

    flux = gain * phot['aper_sum_bkgsub'] / exptime
    err  = np.sqrt(flux + pix_aperture.area() * std_counts**2)
    flux2 = gain * (phot['aper_sum_bkgsub'] + err) / exptime
    inst_mag  = -2.5*np.log10(flux)
    inst_mag2 = -2.5*np.log10(flux2)
    errmag = np.abs(inst_mag2 - inst_mag)

The square root and the logarithm are kept outside the rational layer: `err`
enters the theorems as a variable `noise` constrained by `noise² = noiseSq …`
and `0 ≤ noise`, and the magnitudes appear in the theorem statements as
`-(5/2) * Real.logb 10 ·` applied to these rational fluxes. -/

/-- Value `flux = gain * counts / exptime` where `counts = aper_sum_bkgsub`. -/
def flux (gain exptime counts : ℚ) : ℚ := gain * counts / exptime

/-- The argument of the square root in `err`: `flux + area * std²`. -/
def noiseSq (gain exptime counts area std : ℚ) : ℚ :=
  flux gain exptime counts + area * std ^ 2

/-- Value `flux2 = gain * (counts + err) / exptime`: the source adds the noise to
the background-subtracted COUNTS before the gain/exptime scaling. -/
def flux2 (gain exptime counts noise : ℚ) : ℚ := gain * (counts + noise) / exptime

/-! ## `app_phot` control flow (lines 499–620)

The WCS sky→pixel conversion for the plotting coordinates sits in a
`try/except ValueError` (lines 529–536) that logs two ERROR messages — the
second carrying the offending coordinate array — and then FALLS THROUGH: no
return or re-raise follows, so the photometry table is still assembled and
returned.  Only when `plot=True` does the missing variable `c` make the plot
block raise a `NameError`.  With `save=True` the source writes one record
(line 616):

    f.write("%.3f %s %.4f %.4f %.4f %s %.4f %.4f %.4f\n" % (mjd, filt,
        phot['inst_mag'].data[0], zp, zperr, color, kcoef,
        phot['inst_mag'].data[0] + zp, phot['err_mag'].data[0]))

with `zp`/`zperr` defaulted to 0 when the header keys are absent
(lines 506–509) and `kcoef` taken from the header unconditionally —
`"%.4f" % None` raises a `TypeError` when KCOEF is absent.  The numeric
columns `inst_mag`/`err_mag` are the aperture-pipeline outputs above and
enter this control-flow model as data. -/

/-- Log events of `app_phot`. -/
inductive PhotEvent where
  | errorProjectionMsg                          -- "The vectors of RAs, DECs could not be converted..."
  | errorProjectionCoords (ras decs : List ℚ)   -- str(np.array([ras, decs]).T)
  | infoCreateFile
  | infoAppendFile
  deriving DecidableEq

/-- Inputs of `app_phot` that the modelled control flow consumes. -/
structure PhotIn where
  zp : Option ℚ             -- header ZP
  zperr : Option ℚ          -- header ZPERR
  kcoef : Option ℚ          -- header KCOEF
  colorStr : Option String  -- header COLOR
  mjd : ℚ
  filt : String
  ras : List ℚ
  decs : List ℚ
  instMag : List ℚ          -- phot['inst_mag'] column
  errMag : List ℚ           -- phot['err_mag'] column
  projFails : Bool          -- wcs_world2pix raises ValueError
  plot : Bool
  save : Bool

/-- One line of the per-object photometry log
(`mjd filter instr_mag zp zperr color kcoef mag magerr`). -/
structure PhotRecord where
  mjd : ℚ
  filt : String
  instrMag : ℚ
  zp : ℚ
  zperr : ℚ
  color : String
  kcoef : ℚ
  mag : ℚ
  magerr : ℚ
  deriving DecidableEq

/-- What `app_phot` produces: the returned photometry columns, the log, and
the record appended to the per-object file (if any). -/
structure PhotOut where
  instMag : List ℚ
  errMag : List ℚ
  log : List PhotEvent
  written : Option PhotRecord

/-- Control flow of `app_phot`. -/
def app_phot (i : PhotIn) : Except PyErr PhotOut :=
  let zp := i.zp.getD 0
  let zperr := i.zperr.getD 0
  let log0 : List PhotEvent :=
    if i.projFails then [.errorProjectionMsg, .errorProjectionCoords i.ras i.decs] else []
  if i.plot && i.projFails then
    .error .nameError            -- plot block reads the unbound `c`
  else if i.save then
    match i.instMag.head?, i.errMag.head? with
    | some m, some e =>
      match i.kcoef with
      | none => .error .typeError    -- "%.4f" % None
      | some k =>
        .ok { instMag := i.instMag, errMag := i.errMag
              log := log0 ++ [.infoCreateFile, .infoAppendFile]
              written := some { mjd := i.mjd, filt := i.filt, instrMag := m
                                zp := zp, zperr := zperr
                                color := i.colorStr.getD "None", kcoef := k
                                mag := m + zp, magerr := e } }
    | _, _ => .error .indexError     -- phot['inst_mag'].data[0] on an empty table
  else
    .ok { instMag := i.instMag, errMag := i.errMag, log := log0, written := none }

/-! ## Definitions written from the SPEC's words, for comparison with the
code-side definitions above, and concrete inputs used by counterexamples and
witnesses. -/

/-- Comparison `q ≤ x`: false when `x` is NaN (IEEE semantics). -/
def nGeQ : NFloat → ℚ → Bool
  | some a, q => decide (q ≤ a)
  | none, _ => false

/-- Comparison `x ≤ q`: false when `x` is NaN (IEEE semantics). -/
def nLeQ : NFloat → ℚ → Bool
  | some a, q => decide (a ≤ q)
  | none, _ => false

/-- The detection predicate as the SPEC words it: "ratio of the two FWHM
components lies within [0.5, 2.0]" — a CLOSED interval — with all the other
conjuncts as in the source.  Written from the spec sentence, for comparison
with `(mkFitRecord k sx sy amp off).detected`. -/
def detectedSpecClosedInterval (k : ℚ) (sx sy amp off : NFloat) : Bool :=
  let fx := nAbsMul k sx
  let fy := nAbsMul k sy
  let bg := nMaxQ (1/1000) off
  !(nIsNan fx) && !(nIsNan fy) && nGtQ amp 1 &&
    nGeQ (nDiv fy fx) (1/2) && nLeQ (nDiv fy fx) 2 && nGtQ (nDiv amp bg) (1/5)

/-- Five joined star rows used as concrete data for the zeropoint run:
instrumental magnitudes 0, unit photometric errors, catalogue magnitudes
around 25 with colours `cat - col` ranging over `±0.4, ±0.2, 0`. -/
def zpRowsData : List ZPRow :=
  [⟨25, 25 + 2/5, 0, 0, 1⟩,
   ⟨251/10, 251/10 + 1/5, 0, 0, 1⟩,
   ⟨249/10, 249/10, 0, 0, 1⟩,
   ⟨253/10, 253/10 - 1/5, 0, 0, 1⟩,
   ⟨501/20, 501/20 - 2/5, 0, 0, 1⟩]

/-- Concrete `app_phot` input whose WCS projection fails, with plotting and
saving disabled. -/
def photInProjFail : PhotIn :=
  { zp := none, zperr := none, kcoef := none, colorStr := none
    mjd := 0, filt := "r", ras := [5], decs := [7]
    instMag := [12], errMag := [1/10]
    projFails := true, plot := false, save := false }

/-- Concrete `app_phot` input with saving enabled and all header keys
present. -/
def photInSave : PhotIn :=
  { zp := some 25, zperr := some (1/20), kcoef := some (3/20)
    colorStr := some "r-g"
    mjd := 58000, filt := "r", ras := [5], decs := [7]
    instMag := [-12], errMag := [1/10]
    projFails := false, plot := false, save := true }

/-- Three catalogue rows used as concrete data for the masking theorems. -/
def catRowsData : List CatRow :=
  [⟨20, 20, 15⟩, ⟨50, 50, 16⟩, ⟨80, 80, 21⟩]

/-- Three fit records that all pass the post-fit quality mask. -/
def threeGoodFits : List StarFit :=
  [⟨true, some 2, some (9/10)⟩, ⟨true, some 3, some (4/5)⟩, ⟨true, some 4, some (7/10)⟩]

/-! ## Shared helper lemmas -/

/-- Unpacking of the `_find_fwhm` detection predicate into its propositional
content: for a positive conversion constant `k`, the converged-fit record is
detected iff all four optimizer outputs are non-NaN, the amplitude exceeds 1,
the σ-ratio lies strictly inside (1/2, 2) (the FWHM conversion constant
cancels), and the amplitude-to-background quotient exceeds 1/5. -/
lemma mkFitRecord_detected_iff (k : ℚ) (sx sy amp off : NFloat) (hk : 0 < k) :
    (mkFitRecord k sx sy amp off).detected = true ↔
      ∃ a s1 s2 o, amp = some a ∧ sx = some s1 ∧ sy = some s2 ∧ off = some o ∧
        1 < a ∧ s1 ≠ 0 ∧ 1/2 < |s2| / |s1| ∧ |s2| / |s1| < 2 ∧
        1/5 < a / max (1/1000) o := by
  cases amp with
  | none => simp [mkFitRecord, nGtQ]
  | some a =>
    cases sx with
    | none => simp [mkFitRecord, nAbsMul, nIsNan]
    | some s1 =>
      cases sy with
      | none => simp [mkFitRecord, nAbsMul, nIsNan]
      | some s2 =>
        cases off with
        | none => simp [mkFitRecord, nMaxQ, nDiv, nGtQ, nAbsMul, nIsNan, nInOpen, nLtQ]
        | some o =>
          by_cases h1 : s1 = 0
          · subst h1
            simp [mkFitRecord, nAbsMul, nIsNan, nDiv, nInOpen, nGtQ, nLtQ, nMaxQ]
          · have hfx : |s1| * k ≠ 0 := mul_ne_zero (abs_ne_zero.mpr h1) hk.ne'
            have hbg : max ((1000 : ℚ)⁻¹) o ≠ 0 :=
              (lt_of_lt_of_le (by norm_num) (le_max_left _ _)).ne'
            have hratio : |s2| * k / (|s1| * k) = |s2| / |s1| :=
              mul_div_mul_right _ _ hk.ne'
            simp [mkFitRecord, nAbsMul, nIsNan, nDiv, nInOpen, nGtQ, nLtQ, nMaxQ,
              hfx, hbg, hratio, h1, and_assoc]

/-- Filtering with a stronger predicate never yields a longer list. -/
lemma filter_length_mono {α : Type} {p q : α → Bool} (l : List α)
    (h : ∀ a, p a = true → q a = true) :
    (l.filter p).length ≤ (l.filter q).length :=
  (List.monotone_filter_right l fun a ha => h a ha).length_le

/-- Three successive filters collapse into one filter by the conjunction. -/
lemma triple_filter_collapse {A B C : ℕ → Bool} (l : List ℕ) :
    ((l.filter A).filter B).filter C = l.filter fun i => A i && B i && C i := by
  rw [List.filter_filter, List.filter_filter]
  apply List.filter_congr
  intro i _
  cases hA : A i <;> cases hB : B i <;> cases hC : C i <;> rfl

/-! ## Claim theorems -/

/-- C1: for every image and survey for which star-sequence extraction fails
(unknown survey, failed or empty catalogue query, catalogue-rename failure,
no stars surviving the masks, or fewer than 3 stars with a valid PSF fit),
`get_zeropoint` returns exactly the sentinel triple (0, 0, 0) and does not
raise an exception. -/
theorem get_zeropoint_failure_sentinel (f : ExtractFailure) :
    get_zeropoint (extractReturn f) = Except.ok (0, 0, 0) := by
  cases f <;> rfl

/-- C2 (amended): on success `get_zeropoint` returns zeropoint = median of
`zp_raw` over the final accepted set, zeropoint uncertainty = the standard
deviation of `zp_raw` minus the fitted value over that set (variances stand
for squared standard deviations throughout), and colour term = the final
regression slope; ZPERR, KCOEF and the COLOR filter pair persisted into the
header match the returned uncertainty and colour term — but the header ZP is
the final regression INTERCEPT `coefs[1]`, not the returned median. -/
theorem get_zeropoint_success_spec (filt colfilt : String) (hasD : Bool) (rows : List ZPRow) :
    (get_zeropoint_success filt colfilt hasD rows).ret =
      (npMedian ((zpRows3 hasD rows).map zpv),
       npVar ((zpRows3 hasD rows).map (fitResidual (wlsFit hasD (zpRows3 hasD rows)))),
       (wlsFit hasD (zpRows3 hasD rows)).1) ∧
    (get_zeropoint_success filt colfilt hasD rows).header =
      { zp := (wlsFit hasD (zpRows3 hasD rows)).2
        zperrVar := (get_zeropoint_success filt colfilt hasD rows).ret.2.1
        kcoef := (get_zeropoint_success filt colfilt hasD rows).ret.2.2
        colorPair := (filt, colfilt) } :=
  ⟨rfl, rfl⟩

set_option maxHeartbeats 2000000 in
/-- C2 counterexample: a concrete five-star run on which the returned
zeropoint (the median 25.05) differs from the ZP persisted into the header
(the fitted intercept 25.07), while ZPERR and KCOEF do agree with the
returned values — refuting the claim that the returned triple and the
persisted triple are the same three values. -/
theorem zeropoint_return_vs_header_counterexample :
    (get_zeropoint_success "r" "g" false zpRowsData).ret.1 = 501/20 ∧
    (get_zeropoint_success "r" "g" false zpRowsData).header.zp = 2507/100 ∧
    (get_zeropoint_success "r" "g" false zpRowsData).ret.1 ≠
      (get_zeropoint_success "r" "g" false zpRowsData).header.zp ∧
    (get_zeropoint_success "r" "g" false zpRowsData).header.zperrVar =
      (get_zeropoint_success "r" "g" false zpRowsData).ret.2.1 ∧
    (get_zeropoint_success "r" "g" false zpRowsData).header.kcoef =
      (get_zeropoint_success "r" "g" false zpRowsData).ret.2.2 := by
  have h1 : zpRows1 zpRowsData = zpRowsData := by
    norm_num [zpRows1, zpRowsData, abs_lt]
  have hm : zpRowsData.map zpv = [25, 251/10, 249/10, 253/10, 501/20] := by
    norm_num [zpv, zpRowsData]
  have hs1 : sigmaClipStats [25, 251/10, 249/10, 253/10, 501/20] = (501/20, 11/625) := by
    norm_num [sigmaClipStats, clipIter, clipOnce, npMedian, npVar, sortQ, insertSorted]
  have h2 : zpRows2 zpRowsData = zpRowsData := by
    simp only [zpRows2, h1, hm, hs1]
    norm_num [zpRowsData, zpv, colv, abs_lt]
  have hw : wlsFit false zpRowsData = (3/20, 2507/100) := by
    norm_num [wlsFit, wsq, colv, zpv, zpRowsData]
  have hres : zpRowsData.map (fitResidual (3/20, 2507/100)) =
      [-1/100, 3/50, -17/100, 1/5, -2/25] := by
    norm_num [fitResidual, zpv, colv, zpRowsData]
  have hs2 : sigmaClipStats [-1/100, 3/50, -17/100, 1/5, -2/25] = (-1/100, 79/5000) := by
    norm_num [sigmaClipStats, clipIter, clipOnce, npMedian, npVar, sortQ, insertSorted]
  have h3 : zpRows3 false zpRowsData = zpRowsData := by
    simp only [zpRows3, h2, hw, hres, hs2]
    norm_num [zpRowsData, fitResidual, zpv, colv]
  have hmed : npMedian [25, 251/10, 249/10, 253/10, 501/20] = 501/20 := by
    norm_num [npMedian, sortQ, insertSorted]
  refine ⟨?_, ?_, ?_, rfl, rfl⟩
  · simp only [get_zeropoint_success, h3, hm, hmed]
  · simp only [get_zeropoint_success, h3, hw]
  · simp only [get_zeropoint_success, h3, hm, hmed, hw]
    norm_num

/-- C3 (amended): the post-fit quality mask keeps exactly the stars whose
FWHM and ellipticity are non-NaN, whose detected flag is true, whose
ellipticity exceeds 0.6, and whose fitter FWHM is below 10 in PIXEL units
(the pixel→arcsec conversion by `pix2ang` happens only after masking); with
fewer than 3 survivors the stage returns the failure value and logs an error
carrying the surviving count, and otherwise keeps exactly the surviving
records. -/
theorem quality_mask_and_min_count_spec :
    (∀ r : StarFit, mask_valid_fwhm r = true ↔
      ∃ f el, r.fwhm = some f ∧ r.e = some el ∧ r.detected = true ∧ 3/5 < el ∧ f < 10) ∧
    (∀ recs : List StarFit, (recs.filter mask_valid_fwhm).length < 3 →
      extract_quality recs = (none,
        [ExtractEvent.infoLeftValid (recs.filter mask_valid_fwhm).length,
         ExtractEvent.errorTooFew (recs.filter mask_valid_fwhm).length])) ∧
    (∀ recs : List StarFit, 3 ≤ (recs.filter mask_valid_fwhm).length →
      extract_quality recs = (some (recs.filter mask_valid_fwhm),
        [ExtractEvent.infoLeftValid (recs.filter mask_valid_fwhm).length])) := by
  refine ⟨?_, ?_, ?_⟩
  · intro r
    obtain ⟨d, f, el⟩ := r
    cases f <;> cases el <;>
      simp [mask_valid_fwhm, nIsNan, nGtQ, nLtQ, and_comm, and_assoc, and_left_comm]
  · intro recs h
    simp only [extract_quality]
    rw [if_pos h]
  · intro recs h
    simp only [extract_quality]
    rw [if_neg (Nat.not_lt.mpr h)]

/-- C3 witness: the mask characterization at a concrete record, the failure
branch at the empty record list, and the success branch at three good
records. -/
theorem quality_mask_and_min_count_spec_witness :
    (mask_valid_fwhm ⟨true, some 2, some (9/10)⟩ = true ↔
      ∃ f el, (⟨true, some 2, some (9/10)⟩ : StarFit).fwhm = some f ∧
        (⟨true, some 2, some (9/10)⟩ : StarFit).e = some el ∧
        (⟨true, some 2, some (9/10)⟩ : StarFit).detected = true ∧ 3/5 < el ∧ f < 10) ∧
    (([] : List StarFit).filter mask_valid_fwhm).length < 3 ∧
    extract_quality ([] : List StarFit) = (none,
      [ExtractEvent.infoLeftValid (([] : List StarFit).filter mask_valid_fwhm).length,
       ExtractEvent.errorTooFew (([] : List StarFit).filter mask_valid_fwhm).length]) ∧
    3 ≤ (threeGoodFits.filter mask_valid_fwhm).length ∧
    extract_quality threeGoodFits = (some (threeGoodFits.filter mask_valid_fwhm),
      [ExtractEvent.infoLeftValid (threeGoodFits.filter mask_valid_fwhm).length]) := by
  have h0 : (([] : List StarFit).filter mask_valid_fwhm).length < 3 := by simp
  have h3 : 3 ≤ (threeGoodFits.filter mask_valid_fwhm).length := by
    norm_num [threeGoodFits, mask_valid_fwhm, nIsNan, nGtQ, nLtQ, List.filter]
  exact ⟨quality_mask_and_min_count_spec.1 _, h0,
    quality_mask_and_min_count_spec.2.1 _ h0, h3,
    quality_mask_and_min_count_spec.2.2 _ h3⟩

/-- C3 counterexample: with pixel scale 0.5 arcsec/pixel, a detected star
with fitter FWHM 12 pixels (= 6 arcsec, below 10 arcsec) and ellipticity 0.7
is REJECTED by the source's mask (12 ≥ 10 in pixel units), although the
claim's "FWHM below 10 arcsec" reading would keep it. -/
theorem quality_mask_arcsec_counterexample :
    mask_valid_fwhm ⟨true, some 12, some (7/10)⟩ = false ∧
    maskValidFwhmSpecArcsec (1/2) ⟨true, some 12, some (7/10)⟩ = true := by
  constructor
  · norm_num [mask_valid_fwhm, nIsNan, nGtQ, nLtQ]
  · norm_num [maskValidFwhmSpecArcsec, nIsNan, nGtQ, nLtQ, nScale]

/-- C4 (amended): the reported magnitude uncertainty equals
`|mag(flux + gain*noise/exptime) - mag(flux)|` where
`noise = sqrt(flux + aperture_area * annulus_std²)` and
`mag(f) = -2.5*log10(f)`: the source adds the noise to the
background-subtracted COUNTS before the gain/exptime scaling
(`flux2 = gain*(counts+err)/exptime`), not to the flux. -/
theorem app_phot_errmag_spec (gain exptime counts area std noise : ℚ)
    (he : exptime ≠ 0) (_hn0 : 0 ≤ noise)
    (_hn : noise ^ 2 = noiseSq gain exptime counts area std) :
    |(-(5/2) * Real.logb 10 ((flux2 gain exptime counts noise : ℚ) : ℝ)) -
      (-(5/2) * Real.logb 10 ((flux gain exptime counts : ℚ) : ℝ))| =
    |(-(5/2) * Real.logb 10 ((flux gain exptime counts + gain * noise / exptime : ℚ) : ℝ)) -
      (-(5/2) * Real.logb 10 ((flux gain exptime counts : ℚ) : ℝ))| := by
  have harg : flux2 gain exptime counts noise =
      flux gain exptime counts + gain * noise / exptime := by
    unfold flux2 flux
    field_simp
    ring
  rw [harg]

/-- C4 witness: the amended identity instantiated at gain 2, exptime 1,
counts 2, zero background term, where the noise is exactly 2. -/
theorem app_phot_errmag_spec_witness :
    (1 : ℚ) ≠ 0 ∧ (0 : ℚ) ≤ 2 ∧ (2 : ℚ) ^ 2 = noiseSq 2 1 2 0 0 ∧
    |(-(5/2) * Real.logb 10 ((flux2 2 1 2 2 : ℚ) : ℝ)) -
      (-(5/2) * Real.logb 10 ((flux 2 1 2 : ℚ) : ℝ))| =
    |(-(5/2) * Real.logb 10 ((flux 2 1 2 + 2 * 2 / 1 : ℚ) : ℝ)) -
      (-(5/2) * Real.logb 10 ((flux 2 1 2 : ℚ) : ℝ))| :=
  ⟨by norm_num, by norm_num, by norm_num [noiseSq, flux],
   app_phot_errmag_spec 2 1 2 0 0 2 (by norm_num) (by norm_num)
     (by norm_num [noiseSq, flux])⟩

/-- C4 counterexample: at gain 2, exptime 1, counts 2 (flux 4, noise 2) the
source's uncertainty is `|mag(8) - mag(4)|` while the claimed formula gives
`|mag(flux + noise)| = |mag(6) - mag(4)|`; the two differ because the
logarithm is strictly monotone. -/
theorem app_phot_errmag_claim_counterexample :
    (0 : ℚ) ≤ 2 ∧ (2 : ℚ) ^ 2 = noiseSq 2 1 2 0 0 ∧
    |(-(5/2) * Real.logb 10 ((flux2 2 1 2 2 : ℚ) : ℝ)) -
      (-(5/2) * Real.logb 10 ((flux 2 1 2 : ℚ) : ℝ))| ≠
    |(-(5/2) * Real.logb 10 ((flux 2 1 2 + 2 : ℚ) : ℝ)) -
      (-(5/2) * Real.logb 10 ((flux 2 1 2 : ℚ) : ℝ))| := by
  refine ⟨by norm_num, by norm_num [noiseSq, flux], ?_⟩
  have hf : ((flux 2 1 2 : ℚ) : ℝ) = 4 := by norm_num [flux]
  have hf2 : ((flux2 2 1 2 2 : ℚ) : ℝ) = 8 := by norm_num [flux2]
  have hfn : ((flux 2 1 2 + 2 : ℚ) : ℝ) = 6 := by norm_num [flux]
  rw [hf, hf2, hfn]
  have h46 : Real.logb 10 4 < Real.logb 10 6 :=
    Real.logb_lt_logb (by norm_num) (by norm_num) (by norm_num)
  have h68 : Real.logb 10 6 < Real.logb 10 8 :=
    Real.logb_lt_logb (by norm_num) (by norm_num) (by norm_num)
  intro heq
  have hA : -(5/2) * Real.logb 10 8 - -(5/2) * Real.logb 10 4 < 0 := by linarith
  have hB : -(5/2) * Real.logb 10 6 - -(5/2) * Real.logb 10 4 < 0 := by linarith
  rw [abs_of_neg hA, abs_of_neg hB] at heq
  have : Real.logb 10 8 = Real.logb 10 6 := by linarith
  linarith

/-- C5 (code bug): a star at pixel (1,1) of a 100×100 image with cutout
half-width 5 (pixel scale 1 arcsec/pixel) yields an empty Python slice, so
`_find_fwhm` raises an uncaught ValueError instead of marking the star
not-detected; an interior star at (50,50) proceeds to the optimizer. -/
theorem find_fwhm_border_star_raises :
    findFwhmFlow 100 100 5 1 1 = FitFlow.raisesValueError ∧
    findFwhmFlow 100 100 5 50 50 = FitFlow.fitAttempt := by
  constructor <;> decide

/-- C6 (amended): the PSF fitter reports detected = true exactly when both
fitted FWHM components are non-NaN, the amplitude exceeds 1, the ratio of
the two FWHM components lies STRICTLY inside the open interval (0.5, 2) —
not the closed interval [0.5, 2.0] — and the amplitude-to-background ratio
exceeds 0.2. -/
theorem find_fwhm_detected_iff (k : ℚ) (sx sy amp off : NFloat) (hk : 0 < k) :
    (mkFitRecord k sx sy amp off).detected = true ↔
      ∃ a s1 s2 o, amp = some a ∧ sx = some s1 ∧ sy = some s2 ∧ off = some o ∧
        1 < a ∧ s1 ≠ 0 ∧ 1/2 < |s2| / |s1| ∧ |s2| / |s1| < 2 ∧
        1/5 < a / max (1/1000) o :=
  mkFitRecord_detected_iff k sx sy amp off hk

/-- C6 witness: the detection characterization at σ-values (1, 1), amplitude
10, offset 1. -/
theorem find_fwhm_detected_iff_witness :
    0 < (1 : ℚ) ∧
    ((mkFitRecord 1 (some 1) (some 1) (some 10) (some 1)).detected = true ↔
      ∃ a s1 s2 o, (some 10 : NFloat) = some a ∧ (some 1 : NFloat) = some s1 ∧
        (some 1 : NFloat) = some s2 ∧ (some 1 : NFloat) = some o ∧
        1 < a ∧ s1 ≠ 0 ∧ 1/2 < |s2| / |s1| ∧ |s2| / |s1| < 2 ∧
        1/5 < a / max (1/1000) o) := by
  constructor
  · norm_num
  · exact find_fwhm_detected_iff 1 (some 1) (some 1) (some 10) (some 1) (by norm_num)

/-- C6 counterexample: a fit with FWHM components (1, 2) — ratio exactly 2,
inside the claimed closed interval [0.5, 2.0] — amplitude 10 and background
1 is NOT detected by the source (its comparison `0.5 < ratio < 2` is
strict), though the spec's closed-interval predicate accepts it. -/
theorem fwhm_ratio_boundary_counterexample :
    (mkFitRecord 1 (some 1) (some 2) (some 10) (some 1)).detected = false ∧
    detectedSpecClosedInterval 1 (some 1) (some 2) (some 10) (some 1) = true := by
  constructor
  · norm_num [mkFitRecord, nAbsMul, nMaxQ, nIsNan, nDiv, nInOpen, nGtQ, nLtQ]
  · norm_num [detectedSpecClosedInterval, nAbsMul, nMaxQ, nIsNan, nDiv, nGeQ, nLeQ, nGtQ]

/-- C7: for every record produced by the PSF fitter — the converged-fit
branch for any optimizer outputs and the failed-fit branch — detected = true
implies the reported FWHM is strictly positive and the reported ellipticity
lies in (0, 1]. -/
theorem detected_star_invariants :
    (∀ (k : ℚ) (sx sy amp off : NFloat), 0 < k →
      (mkFitRecord k sx sy amp off).detected = true →
      ∃ f el, (mkFitRecord k sx sy amp off).fwhm = some f ∧ 0 < f ∧
        (mkFitRecord k sx sy amp off).e = some el ∧ 0 < el ∧ el ≤ 1) ∧
    failedFitRecord.detected = false := by
  constructor
  · intro k sx sy amp off hk hdet
    obtain ⟨a, s1, s2, o, ha, hsx, hsy, ho, h1a, hs1, hlo, hhi, hsb⟩ :=
      (mkFitRecord_detected_iff k sx sy amp off hk).mp hdet
    subst ha hsx hsy ho
    have habs1 : 0 < |s1| := abs_pos.mpr hs1
    have hq : 0 < |s2| / |s1| := lt_trans (by norm_num) hlo
    have habs2 : 0 < |s2| := by
      rcases div_pos_iff.mp hq with ⟨h, _⟩ | ⟨_, h⟩
      · exact h
      · exact absurd h (not_lt.mpr (abs_nonneg s1))
    have hfx : 0 < |s1| * k := mul_pos habs1 hk
    have hfy : 0 < |s2| * k := mul_pos habs2 hk
    have hmaxpos : 0 < max (|s1| * k) (|s2| * k) := lt_max_of_lt_left hfx
    refine ⟨(|s1| * k + |s2| * k) / 2,
            min (|s1| * k) (|s2| * k) / max (|s1| * k) (|s2| * k), ?_, ?_, ?_, ?_, ?_⟩
    · simp [mkFitRecord, nAvg, nAbsMul]
    · linarith
    · simp [mkFitRecord, nDiv, nMin, nMax, nAbsMul, hmaxpos.ne']
    · exact div_pos (lt_min hfx hfy) hmaxpos
    · exact (div_le_one hmaxpos).mpr (min_le_max)
  · rfl

/-- C7 witness: the invariant at σ-values (1, 1), amplitude 10, offset 1,
where the star is detected. -/
theorem detected_star_invariants_witness :
    0 < (1 : ℚ) ∧
    (mkFitRecord 1 (some 1) (some 1) (some 10) (some 1)).detected = true ∧
    (∃ f el, (mkFitRecord 1 (some 1) (some 1) (some 10) (some 1)).fwhm = some f ∧ 0 < f ∧
      (mkFitRecord 1 (some 1) (some 1) (some 10) (some 1)).e = some el ∧ 0 < el ∧ el ≤ 1) := by
  have hdet : (mkFitRecord 1 (some 1) (some 1) (some 10) (some 1)).detected = true := by
    norm_num [mkFitRecord, nAbsMul, nMaxQ, nIsNan, nDiv, nInOpen, nGtQ, nLtQ]
  exact ⟨by norm_num, hdet,
    detected_star_invariants.1 1 (some 1) (some 1) (some 10) (some 1) (by norm_num) hdet⟩

/-- C8: tightening the magnitude range (raising minmag or lowering maxmag)
never increases the number of stars surviving the combined masks, and —
because every mask, the isolation mask included, is computed on the full
catalogue — applying the in-field, isolation and magnitude masks
sequentially in any of the six orders yields the same star set as the
source's combined mask. -/
theorem masking_monotone_and_commutes :
    (∀ (w h : ℕ) (pix2ang : ℚ) (d : ℕ → ℕ → ℚ) (cat : List CatRow)
        (minmag maxmag minmag' maxmag' : ℚ), minmag ≤ minmag' → maxmag' ≤ maxmag →
      (combinedSelect w h pix2ang d cat minmag' maxmag').length ≤
        (combinedSelect w h pix2ang d cat minmag maxmag).length) ∧
    (∀ (w h : ℕ) (pix2ang : ℚ) (d : ℕ → ℕ → ℚ) (cat : List CatRow) (minmag maxmag : ℚ),
      ((((List.range cat.length).filter (idxInfield w h pix2ang cat)).filter
          (idxIso d cat)).filter (idxMag minmag maxmag cat) =
        combinedSelect w h pix2ang d cat minmag maxmag) ∧
      ((((List.range cat.length).filter (idxInfield w h pix2ang cat)).filter
          (idxMag minmag maxmag cat)).filter (idxIso d cat) =
        combinedSelect w h pix2ang d cat minmag maxmag) ∧
      ((((List.range cat.length).filter (idxIso d cat)).filter
          (idxInfield w h pix2ang cat)).filter (idxMag minmag maxmag cat) =
        combinedSelect w h pix2ang d cat minmag maxmag) ∧
      ((((List.range cat.length).filter (idxIso d cat)).filter
          (idxMag minmag maxmag cat)).filter (idxInfield w h pix2ang cat) =
        combinedSelect w h pix2ang d cat minmag maxmag) ∧
      ((((List.range cat.length).filter (idxMag minmag maxmag cat)).filter
          (idxInfield w h pix2ang cat)).filter (idxIso d cat) =
        combinedSelect w h pix2ang d cat minmag maxmag) ∧
      ((((List.range cat.length).filter (idxMag minmag maxmag cat)).filter
          (idxIso d cat)).filter (idxInfield w h pix2ang cat) =
        combinedSelect w h pix2ang d cat minmag maxmag)) := by
  constructor
  · intro w h pix2ang d cat minmag maxmag minmag' maxmag' hmin hmax
    apply filter_length_mono
    intro i hi
    simp only [Bool.and_eq_true] at hi ⊢
    refine ⟨⟨hi.1.1, hi.1.2⟩, ?_⟩
    have h3 := hi.2
    simp only [idxMag, magMask, Bool.and_eq_true, decide_eq_true_eq] at h3 ⊢
    exact ⟨lt_of_le_of_lt hmin h3.1, lt_of_lt_of_le h3.2 hmax⟩
  · intro w h pix2ang d cat minmag maxmag
    refine ⟨?_, ?_, ?_, ?_, ?_, ?_⟩ <;>
      rw [triple_filter_collapse, combinedSelect] <;>
      (apply List.filter_congr
       intro i _
       cases hA : idxInfield w h pix2ang cat i <;> cases hB : idxIso d cat i <;>
         cases hC : idxMag minmag maxmag cat i <;> rfl)

/-- C8 witness: the monotonicity inequality at a tightened range 15–20
against 14–20, and one permuted mask order, on three concrete catalogue
rows. -/
theorem masking_monotone_and_commutes_witness :
    ((14 : ℚ) ≤ 15) ∧ ((20 : ℚ) ≤ 20) ∧
    ((combinedSelect 100 100 1 (fun _ _ => 11) catRowsData 15 20).length ≤
      (combinedSelect 100 100 1 (fun _ _ => 11) catRowsData 14 20).length) ∧
    ((((List.range catRowsData.length).filter
        (idxMag 14 20 catRowsData)).filter
        ((idxIso (fun _ _ => 11) catRowsData))).filter
        (idxInfield 100 100 1 catRowsData) =
      combinedSelect 100 100 1 (fun _ _ => 11) catRowsData 14 20) :=
  ⟨by norm_num, by norm_num,
   masking_monotone_and_commutes.1 100 100 1 (fun _ _ => 11) catRowsData 14 20 15 20
     (by norm_num) (by norm_num),
   (masking_monotone_and_commutes.2 100 100 1 (fun _ _ => 11) catRowsData 14 20).2.2.2.2.2⟩

/-- C9 (amended): when the WCS projection of the requested sky coordinates
fails in `app_phot`, two ERROR messages are logged — the second carrying the
offending coordinates — but the computation does NOT abort: with plotting
disabled it continues and returns the photometry table (the handler falls
through), and with plotting enabled it instead crashes with a NameError on
the unbound pixel-coordinate variable. -/
theorem app_phot_projection_logs_and_continues :
    (∀ i : PhotIn, i.projFails = true → i.plot = false → i.save = false →
      app_phot i = Except.ok
        { instMag := i.instMag, errMag := i.errMag
          log := [PhotEvent.errorProjectionMsg, PhotEvent.errorProjectionCoords i.ras i.decs]
          written := none }) ∧
    (∀ i : PhotIn, i.projFails = true → i.plot = true →
      app_phot i = Except.error PyErr.nameError) := by
  constructor
  · intro i hp hpl hs
    simp [app_phot, hp, hpl, hs]
  · intro i hp hpl
    simp [app_phot, hp, hpl]

/-- C9 witness: the fall-through behaviour at a concrete failing
projection. -/
theorem app_phot_projection_logs_and_continues_witness :
    photInProjFail.projFails = true ∧ photInProjFail.plot = false ∧
    photInProjFail.save = false ∧
    app_phot photInProjFail = Except.ok
      { instMag := photInProjFail.instMag, errMag := photInProjFail.errMag
        log := [PhotEvent.errorProjectionMsg,
                PhotEvent.errorProjectionCoords photInProjFail.ras photInProjFail.decs]
        written := none } :=
  ⟨rfl, rfl, rfl, app_phot_projection_logs_and_continues.1 photInProjFail rfl rfl rfl⟩

/-- C9 counterexample: a concrete call whose projection fails still returns
a photometry table (with the two error messages logged), refuting "the
computation aborts for that call, producing no photometry measurement". -/
theorem app_phot_projection_continues_counterexample :
    photInProjFail.projFails = true ∧
    app_phot photInProjFail =
      Except.ok { instMag := [12], errMag := [1/10]
                  log := [PhotEvent.errorProjectionMsg, PhotEvent.errorProjectionCoords [5] [7]]
                  written := none } :=
  ⟨rfl, rfl⟩

/-- C10: with saving enabled and the KCOEF header key present, the record
appended to the per-object photometry log carries calibrated magnitude
`instr_mag + ZP` with ZP (and ZPERR) read as 0 when absent from the header;
the colour coefficient is written into the record's `kcoef` field but never
enters the calibrated magnitude. -/
theorem app_phot_saved_record_spec (i : PhotIn) (m e k : ℚ) (restM restE : List ℚ)
    (hs : i.save = true) (hp : i.plot = false) (hk : i.kcoef = some k)
    (hm : i.instMag = m :: restM) (he : i.errMag = e :: restE) :
    app_phot i = Except.ok
      { instMag := i.instMag, errMag := i.errMag
        log := (if i.projFails then
                  [PhotEvent.errorProjectionMsg, PhotEvent.errorProjectionCoords i.ras i.decs]
                else []) ++ [PhotEvent.infoCreateFile, PhotEvent.infoAppendFile]
        written := some { mjd := i.mjd, filt := i.filt, instrMag := m
                          zp := i.zp.getD 0, zperr := i.zperr.getD 0
                          color := i.colorStr.getD "None", kcoef := k
                          mag := m + i.zp.getD 0, magerr := e } } := by
  simp [app_phot, hs, hp, hk, hm, he]

/-- C10 witness: the saved record at a concrete input with ZP 25, ZPERR
0.05, KCOEF 0.15 and instrumental magnitude −12. -/
theorem app_phot_saved_record_spec_witness :
    photInSave.save = true ∧ photInSave.plot = false ∧
    photInSave.kcoef = some (3/20) ∧ photInSave.instMag = [-12] ∧
    photInSave.errMag = [1/10] ∧
    app_phot photInSave = Except.ok
      { instMag := photInSave.instMag, errMag := photInSave.errMag
        log := (if photInSave.projFails then
                  [PhotEvent.errorProjectionMsg,
                   PhotEvent.errorProjectionCoords photInSave.ras photInSave.decs]
                else []) ++ [PhotEvent.infoCreateFile, PhotEvent.infoAppendFile]
        written := some { mjd := photInSave.mjd, filt := photInSave.filt, instrMag := -12
                          zp := photInSave.zp.getD 0, zperr := photInSave.zperr.getD 0
                          color := photInSave.colorStr.getD "None", kcoef := 3/20
                          mag := -12 + photInSave.zp.getD 0, magerr := 1/10 } } :=
  ⟨rfl, rfl, rfl, rfl, rfl,
    app_phot_saved_record_spec photInSave (-12) (1/10) (3/20) [] [] rfl rfl rfl rfl rfl⟩

end Photometry
